import Mathlib

/-!
Shallow embedding of `src/connector.py`, a Fivetran connector that fetches
historical stock prices and upserts them into a `stock_prices` table.

The connector exposes two entry points:
  * `schema(configuration)` — a pure, fixed table declaration;
  * `update(configuration, state)` — a generator that issues one HTTP GET,
    checks the status code, decodes the JSON body, iterates the
    `historical` list, yields one upsert per entry that has a (truthy)
    `date` field, and finally yields `op.checkpoint(state={})`.

Python values flowing through the connector are modelled by a `Json` type;
Python dictionaries are association lists.  Exceptions raised while the
generator runs are modelled explicitly: a run produces the list of
operations yielded before termination together with an optional error
(`RunResult`), mirroring how a consumer of the generator observes it.
-/

namespace Connector

/-- JSON values / Python objects moved around by the connector.
Numbers are modelled as rationals (the connector performs no arithmetic on
them, it only copies them). -/
inductive Json where
  | null : Json
  | bool : Bool → Json
  | num : Rat → Json
  | str : String → Json
  | arr : List Json → Json
  | obj : List (String × Json) → Json

/-- Python exceptions that can escape the generator. -/
inductive PyErr where
  | typeError : PyErr
  | attributeError : PyErr
  | keyError : PyErr
  | jsonDecodeError : PyErr
deriving DecidableEq

/-- Operations yielded by the generator: `op.upsert(table, data)` and
`op.checkpoint(state)`. -/
inductive Operation where
  | upsert : String → List (String × Json) → Operation
  | checkpoint : List (String × Json) → Operation

/-- Observable outcome of consuming the `update` generator to exhaustion:
the operations yielded before it stopped, and the exception (if any) that
escaped it.  `error = none` means the generator terminated normally. -/
structure RunResult where
  ops : List Operation
  error : Option PyErr

/-- An HTTP response as the connector observes it: `response.status_code`,
and the outcome of `response.json()` (which raises `jsonDecodeError` on an
unparseable body). -/
structure HttpResponse where
  status_code : Nat
  jsonBody : Except PyErr Json

/-- Python `dict.get(k)` restricted to our association-list dictionaries. -/
def dictGet (fs : List (String × Json)) (k : String) : Option Json :=
  fs.lookup k

/-- Python truthiness of a value (`if not x`). -/
def pyTruthy : Json → Bool
  | .null => false
  | .bool b => b
  | .num q => decide (q ≠ 0)
  | .str s => decide (s ≠ "")
  | .arr xs => !xs.isEmpty
  | .obj fs => !fs.isEmpty

/-- Truthiness of a `dict.get` result: Python `None` is falsy. -/
def pyTruthyOpt : Option Json → Bool
  | none => false
  | some j => pyTruthy j

/-- Python `k in data` for a string `k`: key membership for dicts, element
equality for lists, substring test for strings, `TypeError` otherwise. -/
def pyContains (data : Json) (k : String) : Except PyErr Bool :=
  match data with
  | .obj fs => .ok (fs.lookup k).isSome
  | .arr xs => .ok (xs.any fun j => match j with | .str s => s == k | _ => false)
  | .str s => .ok (if k = "" then true else (s.splitOn k).length ≥ 2)
  | _ => .error .typeError

/-- Python `data[k]` for a string key `k`: dict indexing; lists and strings
take integer indices only (`TypeError`), other values are not subscriptable. -/
def pySubscript (data : Json) (k : String) : Except PyErr Json :=
  match data with
  | .obj fs =>
      match fs.lookup k with
      | some v => .ok v
      | none => .error .keyError
  | _ => .error .typeError

/-- Python `for x in data`: lists iterate their elements, dicts their keys,
strings their characters; other values raise `TypeError`. -/
def pyIter (data : Json) : Except PyErr (List Json) :=
  match data with
  | .arr xs => .ok xs
  | .obj fs => .ok (fs.map fun kv => Json.str kv.1)
  | .str s => .ok (s.toList.map fun c => Json.str (String.singleton c))
  | _ => .error .typeError

/-- `timedelta(days=days)` accepts numbers (ints, floats, bools) and raises
`TypeError` on any other operand, e.g. a string. -/
def pyTimedeltaOk : Json → Bool
  | .num _ => true
  | .bool _ => true
  | _ => false

/-- `configuration.get("symbol", "AAPL")`. -/
def symbolOf (configuration : List (String × Json)) : Json :=
  (configuration.lookup "symbol").getD (Json.str "AAPL")

/-- `configuration.get("days", 30)`. -/
def daysOf (configuration : List (String × Json)) : Json :=
  (configuration.lookup "days").getD (Json.num 30)

/-- `dict.get` result stored into a dict literal: Python `None` is kept as a
null value. -/
def optVal : Option Json → Json
  | none => Json.null
  | some j => j

/-- The body of the `for price_data in historical_data` loop for one entry:
`price_data.get("date")` (an `AttributeError` if `price_data` is not a
dict), `continue` when the date is missing/falsy, otherwise a single
upsert to `stock_prices` built from `price_data.get` of each column. -/
def processEntry (symbol : Json) (price_data : Json) : Except PyErr (List Operation) :=
  match price_data with
  | .obj fs =>
      let date_str := dictGet fs "date"
      if pyTruthyOpt date_str then
        .ok [Operation.upsert "stock_prices"
          [("symbol", symbol),
           ("date", optVal date_str),
           ("open", optVal (dictGet fs "open")),
           ("high", optVal (dictGet fs "high")),
           ("low", optVal (dictGet fs "low")),
           ("close", optVal (dictGet fs "close")),
           ("volume", optVal (dictGet fs "volume"))]]
      else
        .ok []
  | _ => .error .attributeError

/-- The whole `for` loop: process entries in order, stopping (with the
operations already yielded) at the first exception. -/
def processEntries (symbol : Json) : List Json → RunResult
  | [] => ⟨[], none⟩
  | e :: rest =>
      match processEntry symbol e with
      | .error er => ⟨[], some er⟩
      | .ok ops =>
          let r := processEntries symbol rest
          ⟨ops ++ r.ops, r.error⟩

/-- One table declaration as returned by `schema`. -/
structure TableDef where
  table : String
  primary_key : List String
  columns : List (String × String)
deriving DecidableEq

/-- `schema(configuration)` from `src/connector.py`: a fixed single-table
declaration, ignoring its argument. -/
def schema (configuration : List (String × Json)) : List TableDef :=
  [{ table := "stock_prices",
     primary_key := ["date", "symbol"],
     columns :=
       [("symbol", "STRING"),
        ("date", "UTC_DATETIME"),
        ("open", "FLOAT"),
        ("high", "FLOAT"),
        ("low", "FLOAT"),
        ("close", "FLOAT"),
        ("volume", "INT")] }]

/-- `update(configuration, state)` from `src/connector.py`, as a function of
the configuration, the prior state, and the HTTP response the single GET
returns.  Mirrors the source line by line:
  * read `api_key`, `symbol` (default `"AAPL"`), `days` (default `30`);
  * `end_date - timedelta(days=days)` raises `TypeError` on a non-numeric
    `days` before any request is made (the dates only shape the request
    URL, which is absorbed into the `response` argument);
  * `if response.status_code != 200: return` — no operations at all;
  * `data = response.json()` — a decode failure escapes the generator;
  * `if "historical" not in data: return` — no operations at all;
  * iterate `data["historical"]`, yielding one upsert per entry with a
    truthy `date`;
  * finally `yield op.checkpoint(state={})`.
The `state` parameter is accepted but never read, as in the source. -/
def update (configuration : List (String × Json)) (state : List (String × Json))
    (response : HttpResponse) : RunResult :=
  let symbol := symbolOf configuration
  let days := daysOf configuration
  if ¬ pyTimedeltaOk days then ⟨[], some .typeError⟩
  else if response.status_code ≠ 200 then ⟨[], none⟩
  else
    match response.jsonBody with
    | .error e => ⟨[], some e⟩
    | .ok data =>
        match pyContains data "historical" with
        | .error e => ⟨[], some e⟩
        | .ok b =>
            if ¬ b then ⟨[], none⟩
            else
              match pySubscript data "historical" with
              | .error e => ⟨[], some e⟩
              | .ok historical_data =>
                  match pyIter historical_data with
                  | .error e => ⟨[], some e⟩
                  | .ok entries =>
                      let r := processEntries symbol entries
                      match r.error with
                      | some _ => r
                      | none => ⟨r.ops ++ [Operation.checkpoint []], none⟩

/-- Whether an operation is a checkpoint. -/
def isCheckpoint : Operation → Bool
  | .checkpoint _ => true
  | .upsert _ _ => false

/-- Whether an operation is an upsert. -/
def isUpsert : Operation → Bool
  | .upsert _ _ => true
  | .checkpoint _ => false

/-- The primary-key pair `(date, symbol)` of each upsert row, looked up in
the row payload (the declared primary key of `stock_prices`). -/
def primaryKeys (ops : List Operation) : List (Option Json × Option Json) :=
  ops.filterMap fun o =>
    match o with
    | .upsert _ data => some (data.lookup "date", data.lookup "symbol")
    | .checkpoint _ => none

/-- The primary-key pair the loop body would emit for one historical entry:
`none` when the entry yields no row (missing/falsy date, or not a dict). -/
def entryKey (symbol : Json) : Json → Option (Option Json × Option Json)
  | .obj fs =>
      match dictGet fs "date" with
      | some j => if pyTruthy j then some (some j, some symbol) else none
      | none => none
  | _ => none

/-- The list of entries the `for` loop iterates for a given response, `[]`
whenever the run stops before the loop. -/
def entriesOf (response : HttpResponse) : List Json :=
  match response.jsonBody with
  | .error _ => []
  | .ok data =>
      match pyContains data "historical" with
      | .error _ => []
      | .ok b =>
          if ¬ b then []
          else
            match pySubscript data "historical" with
            | .error _ => []
            | .ok historical_data =>
                match pyIter historical_data with
                | .error _ => []
                | .ok entries => entries

/-! Helper lemmas about the loop and the run shape. -/

theorem isCheckpoint_eq_false_of_isUpsert {op : Operation} (h : isUpsert op = true) :
    isCheckpoint op = false := by
  cases op with
  | upsert t d => rfl
  | checkpoint s => simp [isUpsert] at h

theorem processEntry_ok_upserts (s e : Json) (ops : List Operation)
    (h : processEntry s e = Except.ok ops) : ∀ op ∈ ops, isUpsert op = true := by
  cases e with
  | obj fs =>
      by_cases ht : pyTruthyOpt (dictGet fs "date") = true
      · simp [processEntry, ht] at h
        subst h
        intro op hop
        rw [List.mem_singleton.mp hop]
        rfl
      · simp [processEntry, ht] at h
        subst h
        intro op hop
        simp at hop
  | null => simp [processEntry] at h
  | bool b => simp [processEntry] at h
  | num q => simp [processEntry] at h
  | str t => simp [processEntry] at h
  | arr xs => simp [processEntry] at h

theorem processEntries_all_upserts (s : Json) :
    ∀ es : List Json, ∀ op ∈ (processEntries s es).ops, isUpsert op = true
  | [] => by simp [processEntries]
  | e :: rest => by
      intro op hop
      cases he : processEntry s e with
      | error er => simp [processEntries, he] at hop
      | ok ops =>
          simp only [processEntries, he] at hop
          rcases List.mem_append.mp hop with h1 | h2
          · exact processEntry_ok_upserts s e ops he op h1
          · exact processEntries_all_upserts s rest op h2

theorem primaryKeys_append (l l' : List Operation) :
    primaryKeys (l ++ l') = primaryKeys l ++ primaryKeys l' :=
  List.filterMap_append l l' _

/-- Case analysis on a whole run: either it stops before the loop with no
operations, or its operations are those of the loop over `entriesOf
response`, followed by the empty checkpoint when no exception occurred. -/
theorem update_ops_spec (cfg st : List (String × Json)) (resp : HttpResponse) :
    (update cfg st resp).ops = [] ∨
      (update cfg st resp).ops = (processEntries (symbolOf cfg) (entriesOf resp)).ops ∨
      (update cfg st resp).ops =
        (processEntries (symbolOf cfg) (entriesOf resp)).ops ++ [Operation.checkpoint []] := by
  obtain ⟨code, body⟩ := resp
  by_cases hd : pyTimedeltaOk (daysOf cfg) = true
  · by_cases hc : code = 200
    · cases body with
      | error e => exact Or.inl (by simp [update, hd, hc])
      | ok data =>
          cases hcon : pyContains data "historical" with
          | error e => exact Or.inl (by simp [update, hd, hc, hcon])
          | ok b =>
              cases b with
              | false => exact Or.inl (by simp [update, hd, hc, hcon])
              | true =>
                  cases hsub : pySubscript data "historical" with
                  | error e => exact Or.inl (by simp [update, hd, hc, hcon, hsub])
                  | ok hist =>
                      cases hit : pyIter hist with
                      | error e => exact Or.inl (by simp [update, hd, hc, hcon, hsub, hit])
                      | ok es =>
                          have hent : entriesOf ⟨code, Except.ok data⟩ = es := by
                            simp [entriesOf, hcon, hsub, hit]
                          cases herr : (processEntries (symbolOf cfg) es).error with
                          | some e =>
                              refine Or.inr (Or.inl ?_)
                              rw [hent]
                              simp [update, hd, hc, hcon, hsub, hit, herr]
                          | none =>
                              refine Or.inr (Or.inr ?_)
                              rw [hent]
                              simp [update, hd, hc, hcon, hsub, hit, herr]
    · exact Or.inl (by simp [update, hd, hc])
  · exact Or.inl (by simp [update, hd])

/-- The primary keys the loop emits form a sublist of the keys computed
entry by entry (a proper prefix when an exception truncates the loop). -/
theorem processEntries_keys_sublist (s : Json) :
    ∀ es : List Json,
      List.Sublist (primaryKeys (processEntries s es).ops) (es.filterMap (entryKey s))
  | [] => by simp [processEntries, primaryKeys]
  | e :: rest => by
      have IH := processEntries_keys_sublist s rest
      cases e with
      | obj fs =>
          cases hdd : dictGet fs "date" with
          | none =>
              have h1 : processEntry s (Json.obj fs) = Except.ok [] := by
                simp [processEntry, hdd, pyTruthyOpt]
              have h2 : entryKey s (Json.obj fs) = none := by
                simp [entryKey, hdd]
              simp only [processEntries, h1, List.filterMap_cons, h2, List.nil_append]
              exact IH
          | some j =>
              by_cases ht : pyTruthy j = true
              · have h1 : processEntry s (Json.obj fs) = Except.ok
                    [Operation.upsert "stock_prices"
                      [("symbol", s), ("date", optVal (some j)),
                       ("open", optVal (dictGet fs "open")),
                       ("high", optVal (dictGet fs "high")),
                       ("low", optVal (dictGet fs "low")),
                       ("close", optVal (dictGet fs "close")),
                       ("volume", optVal (dictGet fs "volume"))]] := by
                  simp [processEntry, hdd, pyTruthyOpt, ht]
                have h2 : entryKey s (Json.obj fs) = some (some j, some s) := by
                  simp [entryKey, hdd, ht]
                simp only [processEntries, h1, List.filterMap_cons, h2, primaryKeys,
                  List.filterMap_cons]
                simp only [List.lookup, optVal]
                exact List.Sublist.cons₂ _ IH
              · have h1 : processEntry s (Json.obj fs) = Except.ok [] := by
                  simp [processEntry, hdd, pyTruthyOpt, ht]
                have h2 : entryKey s (Json.obj fs) = none := by
                  simp [entryKey, hdd, ht]
                simp only [processEntries, h1, List.filterMap_cons, h2, List.nil_append]
                exact IH
      | null => simp [processEntries, processEntry, primaryKeys]
      | bool b => simp [processEntries, processEntry, primaryKeys]
      | num q => simp [processEntries, processEntry, primaryKeys]
      | str t => simp [processEntries, processEntry, primaryKeys]
      | arr xs => simp [processEntries, processEntry, primaryKeys]

/-- An entry the loop body skips can be removed from the list without
changing the outcome of the loop. -/
theorem processEntries_skip (s e : Json) (h : processEntry s e = Except.ok []) :
    ∀ pre post : List Json,
      processEntries s (pre ++ e :: post) = processEntries s (pre ++ post)
  | [], post => by simp [processEntries, h]
  | a :: pre, post => by
      have IH := processEntries_skip s e h pre post
      cases hpa : processEntry s a with
      | error er => simp [processEntries, hpa]
      | ok ops => simp [processEntries, hpa, IH]

/-! Claims. -/

/-- C1, counterexample: the claim says a run hitting a non-200 response
still emits a checkpoint and never raises.  On a 404 the run emits no
operations at all — in particular no checkpoint — and with a string-valued
`days` configuration entry the run raises `TypeError` even on a non-200
response, because `timedelta(days=days)` is evaluated before the request. -/
theorem update_non200_claim_counterexample :
    ((update [] [] ⟨404, Except.ok Json.null⟩).ops.filter isCheckpoint = [] ∧
      (update [] [] ⟨404, Except.ok Json.null⟩).error = none) ∧
    (update [("days", Json.str "30")] [] ⟨404, Except.ok Json.null⟩).error =
      some PyErr.typeError :=
  ⟨⟨rfl, rfl⟩, rfl⟩

/-- C1, amended: for every configuration whose `days` value is numeric and
every non-200 response, the run terminates without raising and emits zero
operations — zero upserts but also zero checkpoints. -/
theorem update_non200_no_ops (cfg st : List (String × Json)) (resp : HttpResponse)
    (hdays : pyTimedeltaOk (daysOf cfg) = true) (hcode : resp.status_code ≠ 200) :
    update cfg st resp = ⟨[], none⟩ := by
  obtain ⟨code, body⟩ := resp
  simp only [HttpResponse.status_code] at hcode
  simp [update, hdays, hcode]

/-- C1, witness: the amended statement at a concrete 404 response. -/
theorem update_non200_no_ops_witness :
    update [] [] ⟨404, Except.ok Json.null⟩ = ⟨[], none⟩ :=
  update_non200_no_ops [] [] ⟨404, Except.ok Json.null⟩ rfl (by decide)

/-- C3: `schema` returns the same fixed single-table declaration for every
pair of configurations — table `stock_prices`, primary key
`[date, symbol]`, and the seven declared typed columns. -/
theorem schema_fixed_deterministic (c1 c2 : List (String × Json)) :
    schema c1 = schema c2 ∧
    schema c1 = [{ table := "stock_prices",
                   primary_key := ["date", "symbol"],
                   columns := [("symbol", "STRING"), ("date", "UTC_DATETIME"),
                               ("open", "FLOAT"), ("high", "FLOAT"), ("low", "FLOAT"),
                               ("close", "FLOAT"), ("volume", "INT")] }] :=
  ⟨rfl, rfl⟩

/-- C6, counterexample: the claim says exceptions while processing a work
unit are caught at the unit boundary.  A 200 response whose body is not
parseable JSON makes the decode exception escape the generator: the run's
error is `some jsonDecodeError`, not `none`. -/
theorem update_exception_propagates_counterexample :
    update [] [] ⟨200, Except.error PyErr.jsonDecodeError⟩ =
      ⟨[], some PyErr.jsonDecodeError⟩ ∧
    (update [] [] ⟨200, Except.error PyErr.jsonDecodeError⟩).error ≠ none :=
  ⟨rfl, by decide⟩

/-- C6, amended: exceptions while processing a work unit are not caught:
a JSON decode failure escapes the generator unchanged, and a decoded body
of unexpected type (e.g. a bare number, on which the `in` test raises)
escapes as a `TypeError`. -/
theorem update_exception_propagation (cfg st : List (String × Json)) (e : PyErr) (q : Rat)
    (hdays : pyTimedeltaOk (daysOf cfg) = true) :
    (update cfg st ⟨200, Except.error e⟩).error = some e ∧
    (update cfg st ⟨200, Except.ok (Json.num q)⟩).error = some PyErr.typeError := by
  constructor
  · simp [update, hdays]
  · simp [update, hdays, pyContains]

/-- C6, witness: the amended statement at a concrete decode failure and a
concrete numeric body. -/
theorem update_exception_propagation_witness :
    (update [] [] ⟨200, Except.error PyErr.jsonDecodeError⟩).error =
      some PyErr.jsonDecodeError ∧
    (update [] [] ⟨200, Except.ok (Json.num 5)⟩).error = some PyErr.typeError :=
  update_exception_propagation [] [] PyErr.jsonDecodeError 5 rfl

/-- C8: runs are deterministic in the inputs — two runs with the same
configuration and the same upstream response produce identical operation
sequences, and in particular identical primary-key lists. -/
theorem update_idempotent_keys (cfg st : List (String × Json)) (r1 r2 : HttpResponse)
    (h : r1 = r2) :
    update cfg st r1 = update cfg st r2 ∧
    primaryKeys (update cfg st r1).ops = primaryKeys (update cfg st r2).ops := by
  subst h
  exact ⟨rfl, rfl⟩

/-- C8, witness: the determinism statement at a concrete response. -/
theorem update_idempotent_keys_witness :
    update [] [] ⟨200, Except.ok (Json.obj [("historical", Json.arr [])])⟩ =
      update [] [] ⟨200, Except.ok (Json.obj [("historical", Json.arr [])])⟩ ∧
    primaryKeys (update [] [] ⟨200, Except.ok (Json.obj [("historical", Json.arr [])])⟩).ops =
      primaryKeys (update [] [] ⟨200, Except.ok (Json.obj [("historical", Json.arr [])])⟩).ops :=
  update_idempotent_keys [] [] _ _ rfl

/-- C10: the prior checkpoint state is never read — for any two prior
state dictionaries the run produces identical operation sequences. -/
theorem update_state_independent (cfg s1 s2 : List (String × Json)) (resp : HttpResponse) :
    update cfg s1 resp = update cfg s2 resp := rfl

/-- C2: a successful response whose historical list holds an entry with
fields date, open, high, low, close, volume produces exactly one upsert to
`stock_prices` for it, carrying the configured symbol, the entry's date,
and the five numeric fields unchanged.  First conjunct: the whole run on a
single-entry list is exactly that upsert followed by the empty checkpoint;
second conjunct: the loop body maps such an entry to exactly that one
upsert wherever the entry occurs in the list. -/
theorem update_entry_upsert (cfg st : List (String × Json)) (d : String)
    (o h l c v : Rat) (hdays : pyTimedeltaOk (daysOf cfg) = true) (hdate : d ≠ "") :
    update cfg st ⟨200, Except.ok (Json.obj [("historical", Json.arr
        [Json.obj [("date", Json.str d), ("open", Json.num o), ("high", Json.num h),
          ("low", Json.num l), ("close", Json.num c), ("volume", Json.num v)]])])⟩ =
      ⟨[Operation.upsert "stock_prices"
          [("symbol", symbolOf cfg), ("date", Json.str d), ("open", Json.num o),
           ("high", Json.num h), ("low", Json.num l), ("close", Json.num c),
           ("volume", Json.num v)],
        Operation.checkpoint []], none⟩ ∧
    processEntry (symbolOf cfg) (Json.obj [("date", Json.str d), ("open", Json.num o),
        ("high", Json.num h), ("low", Json.num l), ("close", Json.num c),
        ("volume", Json.num v)]) =
      Except.ok [Operation.upsert "stock_prices"
        [("symbol", symbolOf cfg), ("date", Json.str d), ("open", Json.num o),
         ("high", Json.num h), ("low", Json.num l), ("close", Json.num c),
         ("volume", Json.num v)]] := by
  have hentry : processEntry (symbolOf cfg) (Json.obj [("date", Json.str d),
      ("open", Json.num o), ("high", Json.num h), ("low", Json.num l),
      ("close", Json.num c), ("volume", Json.num v)]) =
      Except.ok [Operation.upsert "stock_prices"
        [("symbol", symbolOf cfg), ("date", Json.str d), ("open", Json.num o),
         ("high", Json.num h), ("low", Json.num l), ("close", Json.num c),
         ("volume", Json.num v)]] := by
    simp [processEntry, dictGet, pyTruthyOpt, pyTruthy, optVal, List.lookup, hdate]
  refine ⟨?_, hentry⟩
  simp [update, hdays, pyContains, pySubscript, pyIter, processEntries, hentry, List.lookup]

/-- C2, witness: the spec's end-to-end example — the entry
(2024-08-01, 212.3, 215.7, 210.1, 214.8, 64295100) under the default
symbol AAPL yields exactly that upsert row, then the empty checkpoint. -/
theorem update_entry_upsert_witness :
    update [] [] ⟨200, Except.ok (Json.obj [("historical", Json.arr
        [Json.obj [("date", Json.str "2024-08-01"), ("open", Json.num 212.3),
          ("high", Json.num 215.7), ("low", Json.num 210.1), ("close", Json.num 214.8),
          ("volume", Json.num 64295100)]])])⟩ =
      ⟨[Operation.upsert "stock_prices"
          [("symbol", Json.str "AAPL"), ("date", Json.str "2024-08-01"),
           ("open", Json.num 212.3), ("high", Json.num 215.7), ("low", Json.num 210.1),
           ("close", Json.num 214.8), ("volume", Json.num 64295100)],
        Operation.checkpoint []], none⟩ ∧
    processEntry (Json.str "AAPL") (Json.obj [("date", Json.str "2024-08-01"),
        ("open", Json.num 212.3), ("high", Json.num 215.7), ("low", Json.num 210.1),
        ("close", Json.num 214.8), ("volume", Json.num 64295100)]) =
      Except.ok [Operation.upsert "stock_prices"
        [("symbol", Json.str "AAPL"), ("date", Json.str "2024-08-01"),
         ("open", Json.num 212.3), ("high", Json.num 215.7), ("low", Json.num 210.1),
         ("close", Json.num 214.8), ("volume", Json.num 64295100)]] :=
  update_entry_upsert [] [] "2024-08-01" 212.3 215.7 210.1 214.8 64295100 rfl (by decide)

/-- C7: a historical entry whose date field is missing is dropped
silently: the loop body yields nothing for it and raises nothing, removing
the entry leaves the loop's outcome on the remaining entries unchanged,
and at run level the responses with and without the entry produce
identical results. -/
theorem update_missing_date_skipped (cfg st : List (String × Json))
    (fs : List (String × Json)) (pre post : List Json)
    (hdate : dictGet fs "date" = none) :
    processEntry (symbolOf cfg) (Json.obj fs) = Except.ok [] ∧
    processEntries (symbolOf cfg) (pre ++ Json.obj fs :: post) =
      processEntries (symbolOf cfg) (pre ++ post) ∧
    update cfg st ⟨200, Except.ok (Json.obj [("historical",
        Json.arr (pre ++ Json.obj fs :: post))])⟩ =
      update cfg st ⟨200, Except.ok (Json.obj [("historical", Json.arr (pre ++ post))])⟩ := by
  have h1 : processEntry (symbolOf cfg) (Json.obj fs) = Except.ok [] := by
    simp [processEntry, hdate, pyTruthyOpt]
  have h2 := processEntries_skip (symbolOf cfg) (Json.obj fs) h1 pre post
  refine ⟨h1, h2, ?_⟩
  by_cases hdays : pyTimedeltaOk (daysOf cfg) = true
  · simp [update, hdays, pyContains, pySubscript, pyIter, List.lookup, h2]
  · simp [update, hdays]

/-- C7, witness: the skip statement at a concrete dateless entry. -/
theorem update_missing_date_skipped_witness :
    processEntry (Json.str "AAPL") (Json.obj [("open", Json.num 1)]) = Except.ok [] ∧
    processEntries (Json.str "AAPL") ([] ++ Json.obj [("open", Json.num 1)] :: []) =
      processEntries (Json.str "AAPL") ([] ++ []) ∧
    update [] [] ⟨200, Except.ok (Json.obj [("historical",
        Json.arr ([] ++ Json.obj [("open", Json.num 1)] :: []))])⟩ =
      update [] [] ⟨200, Except.ok (Json.obj [("historical", Json.arr ([] ++ []))])⟩ :=
  update_missing_date_skipped [] [] [("open", Json.num 1)] [] [] rfl

/-- C5, counterexample: the claim says the emitted checkpoint carries the
new cursor value as a flat single-key mapping.  A run that reaches the
checkpoint step emits `op.checkpoint(state={})`: the state mapping is
empty, it has zero keys and no cursor value. -/
theorem update_checkpoint_state_counterexample :
    (update [] [] ⟨200, Except.ok (Json.obj [("historical", Json.arr [])])⟩).ops =
      [Operation.checkpoint []] ∧
    (update [] [] ⟨200, Except.ok (Json.obj [("historical", Json.arr [])])⟩).error = none ∧
    ([] : List (String × Json)).length = 0 :=
  ⟨rfl, rfl, rfl⟩

/-- C5, amended: every checkpoint operation the pipeline emits carries the
empty state mapping — the connector tracks no cursor at all. -/
theorem update_checkpoint_state_empty (cfg st : List (String × Json))
    (resp : HttpResponse) (cpState : List (String × Json))
    (hmem : Operation.checkpoint cpState ∈ (update cfg st resp).ops) :
    cpState = [] := by
  rcases update_ops_spec cfg st resp with h | h | h
  · rw [h] at hmem
    simp at hmem
  · rw [h] at hmem
    have hu := processEntries_all_upserts (symbolOf cfg) (entriesOf resp) _ hmem
    simp [isUpsert] at hu
  · rw [h] at hmem
    rcases List.mem_append.mp hmem with h1 | h2
    · have hu := processEntries_all_upserts (symbolOf cfg) (entriesOf resp) _ h1
      simp [isUpsert] at hu
    · exact Operation.checkpoint.inj (List.mem_singleton.mp h2)

/-- C5, witness: the amended statement applied to a successful run that
does emit a checkpoint. -/
theorem update_checkpoint_state_empty_witness :
    ([] : List (String × Json)) = [] :=
  update_checkpoint_state_empty [] []
    ⟨200, Except.ok (Json.obj [("historical", Json.arr [])])⟩ []
    (by simp [update, processEntries, pyContains, pySubscript, pyIter, List.lookup,
          daysOf, pyTimedeltaOk, symbolOf])

/-- C4, counterexample: the claim says every run emits exactly one
checkpoint-state object.  A 200 response without a `historical` key makes
the run return early and complete with zero operations — in particular
zero checkpoints, not one. -/
theorem update_checkpoint_count_counterexample :
    (update [] [] ⟨200, Except.ok (Json.obj [("result", Json.str "ok")])⟩).ops = [] ∧
    (update [] [] ⟨200, Except.ok (Json.obj [("result", Json.str "ok")])⟩).error = none ∧
    ((update [] [] ⟨200, Except.ok (Json.obj [("result", Json.str "ok")])⟩).ops.filter
        isCheckpoint).length ≠ 1 :=
  ⟨rfl, rfl, by decide⟩

/-- C4, amended: at most one checkpoint operation is emitted per run, and
any checkpoint that is emitted is the last element of the operation
sequence (it follows every upsert of the run). -/
theorem update_checkpoint_unique_last (cfg st : List (String × Json)) (resp : HttpResponse)
    (c : Operation) (hcp : isCheckpoint c = true) (hmem : c ∈ (update cfg st resp).ops) :
    ((update cfg st resp).ops.filter isCheckpoint).length ≤ 1 ∧
    (update cfg st resp).ops.getLast? = some c := by
  rcases update_ops_spec cfg st resp with h | h | h
  · rw [h] at hmem
    simp at hmem
  · rw [h] at hmem
    have hu := processEntries_all_upserts (symbolOf cfg) (entriesOf resp) c hmem
    rw [isCheckpoint_eq_false_of_isUpsert hu] at hcp
    simp at hcp
  · constructor
    · rw [h, List.filter_append]
      have hf : (processEntries (symbolOf cfg) (entriesOf resp)).ops.filter isCheckpoint
          = [] := by
        refine List.filter_eq_nil_iff.mpr (fun op hop => ?_)
        simp [isCheckpoint_eq_false_of_isUpsert (processEntries_all_upserts _ _ op hop)]
      rw [hf]
      simp [isCheckpoint]
    · rw [h] at hmem
      rw [h]
      rcases List.mem_append.mp hmem with h1 | h2
      · have hu := processEntries_all_upserts (symbolOf cfg) (entriesOf resp) c h1
        rw [isCheckpoint_eq_false_of_isUpsert hu] at hcp
        simp at hcp
      · rw [List.mem_singleton.mp h2]
        exact List.getLast?_concat _

/-- C4, witness: a concrete run with one (dateless, skipped) entry emits
exactly the final empty checkpoint, which is its last operation. -/
theorem update_checkpoint_unique_last_witness :
    ((update [] [] ⟨200, Except.ok (Json.obj [("historical", Json.arr
        [Json.obj [("open", Json.num 2)]])])⟩).ops.filter isCheckpoint).length ≤ 1 ∧
    (update [] [] ⟨200, Except.ok (Json.obj [("historical", Json.arr
        [Json.obj [("open", Json.num 2)]])])⟩).ops.getLast? =
      some (Operation.checkpoint []) :=
  update_checkpoint_unique_last [] []
    ⟨200, Except.ok (Json.obj [("historical", Json.arr [Json.obj [("open", Json.num 2)]])])⟩
    (Operation.checkpoint []) rfl
    (by simp [update, processEntries, processEntry, pyContains, pySubscript, pyIter,
          List.lookup, dictGet, pyTruthyOpt, daysOf, pyTimedeltaOk, symbolOf])

/-- C9, counterexample: the claim says the primary-key pairs of the
emitted rows are pairwise distinct within a run.  A response whose
historical list repeats the same date yields two upserts with the same
`(date, symbol)` key: nothing in the code deduplicates. -/
theorem update_duplicate_keys_counterexample :
    ¬ (primaryKeys (update [] [] ⟨200, Except.ok (Json.obj [("historical", Json.arr
        [Json.obj [("date", Json.str "2024-08-01")],
         Json.obj [("date", Json.str "2024-08-01")]])])⟩).ops).Pairwise
      (fun a b => a ≠ b) := by
  intro hp
  have he : primaryKeys (update [] [] ⟨200, Except.ok (Json.obj [("historical", Json.arr
      [Json.obj [("date", Json.str "2024-08-01")],
       Json.obj [("date", Json.str "2024-08-01")]])])⟩).ops =
      [(some (Json.str "2024-08-01"), some (Json.str "AAPL")),
       (some (Json.str "2024-08-01"), some (Json.str "AAPL"))] := rfl
  rw [he] at hp
  exact (List.pairwise_cons.mp hp).1 _ (List.mem_singleton.mpr rfl) rfl

/-- C9, amended: within a run, the primary-key pairs of the emitted rows
are pairwise distinct provided the keys computed from the response's
historical entries (one per entry with a truthy date) are pairwise
distinct — i.e. distinct upstream dates give distinct emitted keys. -/
theorem update_keys_pairwise_distinct (cfg st : List (String × Json)) (resp : HttpResponse)
    (hkeys : ((entriesOf resp).filterMap (entryKey (symbolOf cfg))).Pairwise
      (fun a b => a ≠ b)) :
    (primaryKeys (update cfg st resp).ops).Pairwise (fun a b => a ≠ b) := by
  rcases update_ops_spec cfg st resp with h | h | h
  · rw [h]
    simp [primaryKeys]
  · rw [h]
    exact hkeys.sublist (processEntries_keys_sublist _ _)
  · rw [h, primaryKeys_append]
    have hcp : primaryKeys [Operation.checkpoint []] = [] := rfl
    rw [hcp, List.append_nil]
    exact hkeys.sublist (processEntries_keys_sublist _ _)

/-- C9, witness: two entries with distinct dates yield pairwise-distinct
primary keys. -/
theorem update_keys_pairwise_distinct_witness :
    (primaryKeys (update [] [] ⟨200, Except.ok (Json.obj [("historical", Json.arr
        [Json.obj [("date", Json.str "2024-08-01")],
         Json.obj [("date", Json.str "2024-08-02")]])])⟩).ops).Pairwise
      (fun a b => a ≠ b) :=
  update_keys_pairwise_distinct [] []
    ⟨200, Except.ok (Json.obj [("historical", Json.arr
      [Json.obj [("date", Json.str "2024-08-01")],
       Json.obj [("date", Json.str "2024-08-02")]])])⟩
    (by simp [entriesOf, entryKey, symbolOf, pyContains, pySubscript, pyIter, dictGet,
          pyTruthy, List.lookup])

end Connector
